import Mathlib

/-!
Verification development for the CareFi analysis orchestration pipeline.

The definitions below are a shallow embedding of the TypeScript source:
* the in-memory token-bucket `RateLimiter` of the `/api/analysis/start` route,
* the Zod schema validation and retrying Vision client of `lib/ai/openai.ts`,
* the orchestration service of `lib/analysis/service.ts`, and
* the `/api/analysis/latest` read projection.

Machine numbers are modelled as `Nat`/`Int`/`Rat`; timestamps as `Nat`
(millisecond clocks and ISO strings are order-isomorphic); fallible steps as
`Option`/`Except`.  External effects (database, object storage, the OpenAI
provider) are passed in as explicit environment values, so every definition is
executable on concrete inputs.
-/

namespace CareFi

/-! ## Rate limiter (route file, class `RateLimiter`) -/

structure Bucket where
  tokens : Nat
  lastRefill : Nat
deriving Repr, DecidableEq

structure RateLimiterConfig where
  maxTokens : Nat
  refillIntervalMs : Nat
  tokensPerRefill : Nat
deriving Repr, DecidableEq

/-- The refill step at the top of `checkLimit`.  The source computes
`refillsEarned = Math.floor(timeSinceRefill / refillIntervalMs)` on JavaScript
numbers: when `refillIntervalMs` is `0` this is `Infinity` for a positive
numerator (so `refillsEarned > 0` holds and, with `tokensPerRefill > 0`,
`Math.min(maxTokens, tokens + Infinity)` refills to `maxTokens`) and `NaN` for
a zero numerator (`NaN > 0` is false: no refill).  For a positive interval the
JavaScript floor division on the nonnegative operands agrees with `Nat`
division. -/
def refillBucket (cfg : RateLimiterConfig) (b : Bucket) (now : Nat) : Bucket :=
  let timeSinceRefill := now - b.lastRefill
  if cfg.refillIntervalMs = 0 then
    if 0 < timeSinceRefill then { tokens := cfg.maxTokens, lastRefill := now } else b
  else
    let refillsEarned := timeSinceRefill / cfg.refillIntervalMs
    if 0 < refillsEarned then
      { tokens := min cfg.maxTokens (b.tokens + refillsEarned * cfg.tokensPerRefill),
        lastRefill := now }
    else b

/-- `RateLimiter.checkLimit`, restricted to the one key it touches: the map
entry for the key is an `Option Bucket`.  Returns the allow decision and the
updated bucket stored back into the map. -/
def checkLimit (cfg : RateLimiterConfig) (bucket? : Option Bucket) (now : Nat) :
    Bool × Bucket :=
  match bucket? with
  | none => (true, { tokens := cfg.maxTokens - 1, lastRefill := now })
  | some b0 =>
    let b := refillBucket cfg b0 now
    if 0 < b.tokens then (true, { b with tokens := b.tokens - 1 })
    else (false, b)

/-- `RateLimiter.getRetryAfter`: `Math.max(0, refillIntervalMs - (now - lastRefill))`
in milliseconds, on `Int` so that a negative inner difference is kept faithful. -/
def getRetryAfter (cfg : RateLimiterConfig) (bucket? : Option Bucket) (now : Nat) : Int :=
  match bucket? with
  | none => 0
  | some b => max 0 ((cfg.refillIntervalMs : Int) - ((now : Int) - (b.lastRefill : Int)))

/-- A sequence of `checkLimit` calls for one key at the given clock readings,
returning the allow decisions in order and the final map entry. -/
def runRequests (cfg : RateLimiterConfig) (bucket? : Option Bucket) :
    List Nat → List Bool × Option Bucket
  | [] => ([], bucket?)
  | t :: ts =>
    let r := checkLimit cfg bucket? t
    let rest := runRequests cfg (some r.2) ts
    (r.1 :: rest.1, rest.2)

/-- The production instantiation `new RateLimiter(3, 0, 3)` from the route
file (its own comment reads "3 analyses per hour (3600000ms)"). -/
def rateLimiterProdConfig : RateLimiterConfig := ⟨3, 0, 3⟩

/-- The configuration the surrounding comments, docs and tests describe:
3 tokens refilled after a one-hour (3600000 ms) window. -/
def rateLimiterDocumentedConfig : RateLimiterConfig := ⟨3, 3600000, 3⟩

/-! ## Vision analysis data model and Zod schema (lib/ai/openai.ts) -/

/-- `z.enum(['low', 'moderate', 'high'])` as a closed carrier for validated
trait severities (also the declared TypeScript union type). -/
inductive Severity where
  | low
  | moderate
  | high
deriving Repr, DecidableEq

/-- A validated skin trait (`SkinTraitSchema` output). -/
structure SkinTrait where
  id : String
  name : String
  severity : Severity
  description : String
deriving Repr, DecidableEq

/-- A validated vision analysis (`VisionAnalysisSchema` output).  `skinType`
stays a `String`: the runtime value is a string that validation restricts to
the five categories, and the summary mapper keys a defensive
defaulting lookup on it. -/
structure VisionAnalysis where
  skinType : String
  confidence : Rat
  primaryConcern : String
  traits : List SkinTrait
  notes : List String
  modelVersion : String
deriving Repr, DecidableEq

/-- A parsed-but-unvalidated trait object: each expected field either absent
or present with the expected carrier. -/
structure RawTrait where
  id : Option String
  name : Option String
  severity : Option String
  description : Option String
deriving Repr, DecidableEq

/-- A parsed-but-unvalidated model payload, the input of
`VisionAnalysisSchema.safeParse`. -/
structure RawPayload where
  skinType : Option String
  confidence : Option Rat
  primaryConcern : Option String
  traits : Option (List RawTrait)
  notes : Option (List String)
  modelVersion : Option String
deriving Repr, DecidableEq

def severityOfString (s : String) : Option Severity :=
  if s = "low" then some .low
  else if s = "moderate" then some .moderate
  else if s = "high" then some .high
  else none

/-- Membership in `z.enum(['Dry', 'Oily', 'Combination', 'Normal', 'Sensitive'])`. -/
def isValidSkinType (s : String) : Bool :=
  s == "Dry" || s == "Oily" || s == "Combination" || s == "Normal" || s == "Sensitive"

/-- `SkinTraitSchema.safeParse`: all four fields required, `id`/`name`/
`description` non-empty strings (`z.string().min(1)`), `severity` in the
three-value enum. -/
def skinTraitSafeParse (t : RawTrait) : Option SkinTrait :=
  match t.id, t.name, t.severity, t.description with
  | some i, some n, some s, some d =>
    match severityOfString s with
    | some sev =>
      if 1 ≤ i.length ∧ 1 ≤ n.length ∧ 1 ≤ d.length then some ⟨i, n, sev, d⟩
      else none
    | none => none
  | _, _, _, _ => none

def parseTraitList : List RawTrait → Option (List SkinTrait)
  | [] => some []
  | t :: ts =>
    match skinTraitSafeParse t, parseTraitList ts with
    | some v, some vs => some (v :: vs)
    | _, _ => none

/-- `VisionAnalysisSchema.safeParse`: `skinType` in the five-value enum,
`confidence` a number in `[0, 100]`, `primaryConcern` and `modelVersion`
non-empty strings, `traits` an array of valid traits with
`.min(1)`, and `notes` defaulting to `[]` when absent. -/
def visionSafeParse (p : RawPayload) : Option VisionAnalysis :=
  match p.skinType, p.confidence, p.primaryConcern, p.traits, p.modelVersion with
  | some st, some c, some pc, some ts, some mv =>
    if isValidSkinType st ∧ 0 ≤ c ∧ c ≤ 100 ∧ 1 ≤ pc.length ∧ 1 ≤ mv.length then
      match parseTraitList ts with
      | some vs =>
        if 1 ≤ vs.length then
          some ⟨st, c, pc, vs, p.notes.getD [], mv⟩
        else none
      | none => none
    else none
  | _, _, _, _, _ => none

/-! ## Vision client retry policy (lib/ai/openai.ts) -/

structure RetryConfig where
  maxAttempts : Nat
  baseDelayMs : Rat
  maxDelayMs : Rat
deriving Repr, DecidableEq

/-- `RETRY_CONFIG = { maxAttempts: 3, baseDelayMs: 1000, maxDelayMs: 10000 }`. -/
def RETRY_CONFIG : RetryConfig :=
  { maxAttempts := 3, baseDelayMs := 1000, maxDelayMs := 10000 }

/-- `getRetryDelay(attempt)` with the `Math.random()` draw made an explicit
argument `rand ∈ [0, 1)`:
`min(baseDelayMs * 2^attempt + rand * 0.3 * (baseDelayMs * 2^attempt), maxDelayMs)`. -/
def getRetryDelay (rand : Rat) (attempt : Nat) : Rat :=
  let exponentialDelay := RETRY_CONFIG.baseDelayMs * 2 ^ attempt
  let jitter := rand * (3 / 10) * exponentialDelay
  min (exponentialDelay + jitter) RETRY_CONFIG.maxDelayMs

/-- The sleep the retry loop performs before executing loop attempt `k ≥ 1`
(0-indexed; the source passes `attempt - 1` to `getRetryDelay`). -/
def retryDelayBeforeAttempt (rand : Rat) (k : Nat) : Rat :=
  getRetryDelay rand (k - 1)

/-- The errors `callVision` can propagate: a `VisionAnalysisError` with its
`retryable` flag, a provider `OpenAI.APIError` carrying an HTTP status
(rethrown raw by the loop), or any other thrown value. -/
inductive VisionError where
  | visionErr (message : String) (retryable : Bool)
  | apiErr (status : Nat)
  | otherErr
deriving Repr, DecidableEq

/-- `isRetryableError`: true exactly for `OpenAI.APIError` with status 429 or
a status in `[500, 600)`. -/
def isRetryableError : VisionError → Bool
  | .apiErr status => status == 429 || (500 ≤ status && status < 600)
  | _ => false

/-- The `error instanceof VisionAnalysisError && !error.retryable` test at the
top of the loop's catch block. -/
def isVisionNonRetryable : VisionError → Bool
  | .visionErr _ retryable => !retryable
  | _ => false

/-- What one interaction with the provider yields: a reply (possibly with no
content, or content that is not JSON, or a parsed JSON payload), or a thrown
`OpenAI.APIError` with an HTTP status, or some other thrown error. -/
inductive ModelReply where
  | noContent
  | notJson
  | json (p : RawPayload)
deriving Repr, DecidableEq

inductive AttemptOutcome where
  | replied (r : ModelReply)
  | apiThrew (status : Nat)
  | otherThrew
deriving Repr, DecidableEq

/-- The body of one loop attempt after the API interaction: an empty reply
raises a retryable-flagged `VisionAnalysisError`, non-JSON content and schema
violations raise non-retryable ones, and thrown SDK errors propagate. -/
def attemptResult : AttemptOutcome → Except VisionError VisionAnalysis
  | .replied .noContent => .error (.visionErr "OpenAI returned empty response" true)
  | .replied .notJson => .error (.visionErr "OpenAI response is not valid JSON" false)
  | .replied (.json p) =>
    match visionSafeParse p with
    | some v => .ok v
    | none => .error (.visionErr "OpenAI response does not match expected schema" false)
  | .apiThrew status => .error (.apiErr status)
  | .otherThrew => .error .otherErr

/-- The terminal error thrown once the loop exhausts all attempts. -/
def exhaustedError : VisionError :=
  .visionErr "OpenAI Vision API failed after 3 attempts" false

/-- The retry loop of `callVision` over the list of outcomes the provider
would give to the successive attempts (the caller passes exactly
`maxAttempts` of them, so the `rest.isEmpty` test is the source's
`attempt === maxAttempts - 1` check).  Returns the result together with the
number of attempts actually performed.  The catch logic, in source order:
a non-retryable `VisionAnalysisError` is rethrown at once; on the last
attempt the loop breaks and throws `exhaustedError`; an error the retry
predicate rejects is rethrown; otherwise the loop continues. -/
def callVisionLoop : List AttemptOutcome → Except VisionError VisionAnalysis × Nat
  | [] => (.error exhaustedError, 0)
  | o :: rest =>
    match attemptResult o with
    | .ok v => (.ok v, 1)
    | .error e =>
      if isVisionNonRetryable e then (.error e, 1)
      else if rest.isEmpty then (.error exhaustedError, 1)
      else if isRetryableError e then
        let r := callVisionLoop rest
        (r.1, r.2 + 1)
      else (.error e, 1)

/-- `callVision(imageUrls)`: rejects a URL count other than 3 and any URL the
WHATWG `new URL` parser (abstracted as `validUrl`) rejects, both before any
provider attempt; then runs the retry loop.  `outcomes i` is the provider's
behaviour on attempt `i`.  Returns the result and the number of provider
attempts made. -/
def callVision (imageUrls : List String) (validUrl : String → Bool)
    (outcomes : Nat → AttemptOutcome) : Except VisionError VisionAnalysis × Nat :=
  if imageUrls.length ≠ 3 then
    (.error (.visionErr "Expected exactly 3 image URLs" false), 0)
  else if !(imageUrls.all validUrl) then
    (.error (.visionErr "Invalid image URL" false), 0)
  else
    callVisionLoop ((List.range RETRY_CONFIG.maxAttempts).map outcomes)

/-- An outcome that fails this attempt with an error the retry predicate
accepts: a thrown `OpenAI.APIError` with status 429 or in `[500, 600)`. -/
def retryableFailureOutcome : AttemptOutcome → Prop
  | .apiThrew status => status = 429 ∨ (500 ≤ status ∧ status < 600)
  | _ => False

/-- A first-reply failure of a non-retryable class from the claim: malformed
JSON content, or a parsed payload that violates the schema. -/
def nonRetryableReplyOutcome : AttemptOutcome → Prop
  | .replied .notJson => True
  | .replied (.json p) => visionSafeParse p = none
  | _ => False

/-! ## Summary mapper (lib/analysis/service.ts, mapVisionToSummary) -/

/-- `severityMap = { low: 25, moderate: 55, high: 85 }`, used identically by
the mapper and by the latest route. -/
def severityScore : Severity → Nat
  | .low => 25
  | .moderate => 55
  | .high => 85

/-- `getTraitSeverity(traitId)`: find the first trait with the id and map its
severity through `severityMap`; default to 0 when no trait matches. -/
def getTraitSeverity (traits : List SkinTrait) (traitId : String) : Nat :=
  match traits.find? (fun t => t.id == traitId) with
  | none => 0
  | some t => severityScore t.severity

/-- The `skinTypeMap` record lookup: defined on the five upstream categories,
`none` (JavaScript `undefined`) elsewhere. -/
def skinTypeMap (s : String) : Option String :=
  if s = "Dry" then some "dry"
  else if s = "Oily" then some "oily"
  else if s = "Combination" then some "combination"
  else if s = "Normal" then some "normal"
  else if s = "Sensitive" then some "sensitive"
  else none

structure SeriesPoint where
  date : Nat
  acne : Nat
  dryness : Nat
  pigmentation : Nat
deriving Repr, DecidableEq

/-- `AnalysisSummary`.  `detected_traits` is optional: the latest route
includes it, `mapVisionToSummary` does not. -/
structure AnalysisSummary where
  user_id : String
  skin_type : String
  confidence : Rat
  primary_concern : String
  updatedAt : Nat
  series : List SeriesPoint
  notes : List String
  modelVersion : String
  detected_traits : Option (List SkinTrait)
deriving Repr, DecidableEq

/-- `mapVisionToSummary(userId, visionResult, completedAt)`. -/
def mapVisionToSummary (userId : String) (visionResult : VisionAnalysis)
    (completedAt : Nat) : AnalysisSummary :=
  { user_id := userId
    skin_type := (skinTypeMap visionResult.skinType).getD "normal"
    confidence := visionResult.confidence / 100
    primary_concern := visionResult.primaryConcern
    updatedAt := completedAt
    series := [{ date := completedAt
                 acne := getTraitSeverity visionResult.traits "acne"
                 dryness := getTraitSeverity visionResult.traits "dryness"
                 pigmentation := getTraitSeverity visionResult.traits "hyperpigmentation" }]
    notes := visionResult.notes
    modelVersion := visionResult.modelVersion
    detected_traits := none }

/-! ## Analysis orchestrator (lib/analysis/service.ts, startOpenAIVisionAnalysis) -/

structure AnalysisServiceError where
  message : String
  code : String
  userMessage : String
deriving Repr, DecidableEq

/-- The `skin_analyses` row as the orchestrator writes it. -/
structure AnalysisRecord where
  status : String
  detected_traits : List SkinTrait
  confidence_score : Option Rat
  image_ids : List String
  completed_at : Option Nat
  error_message : Option String
deriving Repr, DecidableEq

/-- The row inserted in step 1: `{ status: 'uploading', detected_traits: [],
image_ids: [] }`. -/
def initialRecord : AnalysisRecord :=
  { status := "uploading", detected_traits := [], confidence_score := none,
    image_ids := [], completed_at := none, error_message := none }

/-- The database updates the orchestrator issues against its record:
a plain status change, the completing update of step 5 (traits, confidence,
image ids, `completed_at`, `status: 'complete'`), or the catch-block update
(`status: 'error'`, `error_message` — the source sets no `completed_at`
there). -/
inductive RecUpdate where
  | setStatus (s : String)
  | saveResults (traits : List SkinTrait) (confidence : Rat)
      (imageIds : List String) (completedAt : Nat)
  | setError (message : String)
deriving Repr, DecidableEq

def applyUpdate (r : AnalysisRecord) : RecUpdate → AnalysisRecord
  | .setStatus s => { r with status := s }
  | .saveResults ts c ids t =>
    { r with detected_traits := ts, confidence_score := some c, image_ids := ids,
             completed_at := some t, status := "complete" }
  | .setError m => { r with status := "error", error_message := some m }

def applyUpdates (r : AnalysisRecord) (us : List RecUpdate) : AnalysisRecord :=
  us.foldl applyUpdate r

/-- Whether an update writes the `completed_at` column. -/
def touchesCompletedAt : RecUpdate → Bool
  | .saveResults _ _ _ _ => true
  | _ => false

/-- What `getSignedImageUrls` yields: the three signed URLs with their image
ids, or a thrown `ImageRetrievalError` (missing angle, bad storage URL, or
signed-URL minting failure). -/
inductive ImageFetchResult where
  | ok (urls : List String) (imageIds : List String)
  | retrievalError (message : String)

def dbCreateError : AnalysisServiceError :=
  { message := "Failed to create analysis record", code := "db_create_failed",
    userMessage := "Could not start analysis. Please try again." }

def dbUpdateError : AnalysisServiceError :=
  { message := "Failed to save analysis results", code := "db_update_failed",
    userMessage := "Analysis completed but could not save results. Please try again." }

def missingImagesError (m : String) : AnalysisServiceError :=
  { message := m, code := "missing_images",
    userMessage := "Please upload all three required images (front, left 45, right 45) before starting analysis." }

def visionApiFailedError (m : String) : AnalysisServiceError :=
  { message := m, code := "vision_api_failed",
    userMessage := "Our skin analysis service is temporarily unavailable. Please try again in a few moments." }

def unknownServiceError (m : String) : AnalysisServiceError :=
  { message := m, code := "unknown_error",
    userMessage := "An unexpected error occurred. Please try again." }

/-- The `error.message` the catch block persists.  Provider-thrown errors
carry provider text, abstracted here by their status. -/
def visionErrorMessage : VisionError → String
  | .visionErr m _ => m
  | .apiErr status => "OpenAI API error " ++ toString status
  | .otherErr => "Unknown error occurred"

/-- The catch block's mapping of a `callVision` failure: a
`VisionAnalysisError` becomes `vision_api_failed`; an error rethrown raw by
the loop (a provider `APIError` or anything else) falls through to
`unknown_error`. -/
def serviceErrorOfVisionError : VisionError → AnalysisServiceError
  | .visionErr m _ => visionApiFailedError m
  | e => unknownServiceError (visionErrorMessage e)

/-- The external world one orchestration call runs against. -/
structure OrchEnv where
  userId : String
  createOk : Bool
  images : ImageFetchResult
  validUrl : String → Bool
  outcomes : Nat → AttemptOutcome
  saveOk : Bool
  now : Nat

structure OrchResult where
  result : Except AnalysisServiceError AnalysisSummary
  updates : Option (List RecUpdate)
  visionAttempts : Nat

/-- `startOpenAIVisionAnalysis(userId)`.  `updates` is the ordered list of
database writes applied to the created record (`none` when the insert failed
and no record exists, in which case the catch block skips the error update);
`visionAttempts` counts provider attempts made by `callVision`. -/
def startOpenAIVisionAnalysis (env : OrchEnv) : OrchResult :=
  if !env.createOk then
    { result := .error dbCreateError, updates := none, visionAttempts := 0 }
  else
    match env.images with
    | .retrievalError m =>
      { result := .error (missingImagesError m),
        updates := some [.setStatus "screening", .setError m],
        visionAttempts := 0 }
    | .ok urls imageIds =>
      match callVision urls env.validUrl env.outcomes with
      | (.error e, n) =>
        { result := .error (serviceErrorOfVisionError e),
          updates := some [.setStatus "screening", .setStatus "detecting",
                           .setError (visionErrorMessage e)],
          visionAttempts := n }
      | (.ok v, n) =>
        if env.saveOk then
          { result := .ok (mapVisionToSummary env.userId v env.now),
            updates := some [.setStatus "screening", .setStatus "detecting",
                             .setStatus "generating",
                             .saveResults v.traits v.confidence imageIds env.now],
            visionAttempts := n }
        else
          { result := .error dbUpdateError,
            updates := some [.setStatus "screening", .setStatus "detecting",
                             .setStatus "generating",
                             .setError dbUpdateError.message],
            visionAttempts := n }

/-- The record as persisted once the call finishes: the initial insert with
the issued updates applied, when the insert succeeded at all. -/
def finalRecord (env : OrchEnv) : Option AnalysisRecord :=
  (startOpenAIVisionAnalysis env).updates.map (applyUpdates initialRecord)

/-- A payload with `skinType` absent, exercising the schema-rejection path. -/
def missingSkinTypePayload : RawPayload :=
  { skinType := none, confidence := some 50, primaryConcern := some "c",
    traits := some [⟨some "acne", some "Acne", some "high", some "d"⟩],
    notes := none, modelVersion := some "m" }

/-- A payload that passes schema validation. -/
def validPayload : RawPayload :=
  { skinType := some "Oily", confidence := some 85, primaryConcern := some "oil",
    traits := some [⟨some "oiliness", some "Oiliness", some "high", some "d"⟩],
    notes := some ["n"], modelVersion := some "m" }

/-- A concrete run whose provider replies with `missingSkinTypePayload`. -/
def schemaRejectEnv : OrchEnv :=
  { userId := "u", createOk := true,
    images := .ok ["a", "b", "c"] ["i1", "i2", "i3"],
    validUrl := fun _ => true,
    outcomes := fun _ => .replied (.json missingSkinTypePayload),
    saveOk := true, now := 9 }

/-- A concrete run whose provider fails with HTTP 500 on every attempt. -/
def providerDownEnv : OrchEnv :=
  { userId := "u", createOk := true,
    images := .ok ["a", "b", "c"] ["i1", "i2", "i3"],
    validUrl := fun _ => true, outcomes := fun _ => .apiThrew 500,
    saveOk := true, now := 7 }

/-- A concrete fully successful run. -/
def happyPathEnv : OrchEnv :=
  { userId := "u", createOk := true,
    images := .ok ["a", "b", "c"] ["i1", "i2", "i3"],
    validUrl := fun _ => true,
    outcomes := fun _ => .replied (.json validPayload),
    saveOk := true, now := 7 }

/-- A concrete run where the left_45 image is missing. -/
def missingImageEnv : OrchEnv :=
  { userId := "u", createOk := true,
    images := .retrievalError "Missing required image for angle: left_45",
    validUrl := fun _ => true, outcomes := fun _ => .otherThrew,
    saveOk := true, now := 0 }

/-! ## POST /api/analysis/start (route file) -/

inductive PostResult where
  | unauthorizedRes
  | rateLimitedRes (retryAfterSeconds : Int)
  | okRes (summary : AnalysisSummary)
  | failRes (httpStatus : Nat) (code : String) (userMessage : String)

structure PostEnv where
  authed : Bool
  bucket? : Option Bucket
  now : Nat
  orch : OrchEnv

structure PostOutcome where
  response : PostResult
  bucket? : Option Bucket
  updates : Option (List RecUpdate)
  visionAttempts : Nat

/-- The POST handler: authenticate, consume a rate-limit token via
`checkLimit`, and only then run the orchestration; a denial answers 429 with
`Math.ceil(getRetryAfter(key) / 1000)` seconds (the handler reads the clock
again for `getRetryAfter`; the model reuses the same reading).  A
`missing_images` service error maps to HTTP 400, every other one to 500. -/
def postAnalysisStart (env : PostEnv) : PostOutcome :=
  if !env.authed then
    { response := .unauthorizedRes, bucket? := env.bucket?, updates := none,
      visionAttempts := 0 }
  else
    let check := checkLimit rateLimiterProdConfig env.bucket? env.now
    if !check.1 then
      let retryAfterMs := getRetryAfter rateLimiterProdConfig (some check.2) env.now
      { response := .rateLimitedRes ((retryAfterMs + 999) / 1000),
        bucket? := some check.2, updates := none, visionAttempts := 0 }
    else
      let r := startOpenAIVisionAnalysis env.orch
      match r.result with
      | .ok s =>
        { response := .okRes s, bucket? := some check.2, updates := r.updates,
          visionAttempts := r.visionAttempts }
      | .error e =>
        { response := .failRes (if e.code = "missing_images" then 400 else 500)
            e.code e.userMessage,
          bucket? := some check.2, updates := r.updates,
          visionAttempts := r.visionAttempts }

/-- The tokens available to a key at clock `now` before a request consumes
one: full capacity for a fresh key, otherwise the refilled bucket's tokens. -/
def tokensAvailable (cfg : RateLimiterConfig) (bucket? : Option Bucket) (now : Nat) : Nat :=
  match bucket? with
  | none => cfg.maxTokens
  | some b => (refillBucket cfg b now).tokens

/-- A concrete POST request by a fresh authenticated owner whose left_45
image is missing. -/
def missingImagePostEnv : PostEnv :=
  { authed := true, bucket? := none, now := 0, orch := missingImageEnv }

/-! ## GET /api/analysis/latest (route file) -/

/-- A stored `skin_analyses` row as the latest route reads it. -/
structure DbAnalysisRow where
  id : String
  user_id : String
  status : String
  detected_traits : List SkinTrait
  confidence_score : Option Rat
  created_at : Nat
  completed_at : Option Nat
deriving Repr, DecidableEq

/-- The `eq('user_id', uid).eq('status', 'complete')` filter. -/
def completeRowsFor (db : List DbAnalysisRow) (uid : String) : List DbAnalysisRow :=
  db.filter (fun r => r.user_id == uid && r.status == "complete")

/-- The `order('completed_at', descending)` key order: Postgres places NULLs
first under a descending sort, so `none` sits above every timestamp. -/
def tsLE : Option Nat → Option Nat → Bool
  | _, none => true
  | none, some _ => false
  | some a, some b => a ≤ b

/-- One comparison step of the selection below: keep the incumbent unless the
candidate sorts strictly above it. -/
def pickLatestStep (acc : Option DbAnalysisRow) (r : DbAnalysisRow) :
    Option DbAnalysisRow :=
  match acc with
  | none => some r
  | some a => if !(tsLE r.completed_at a.completed_at) then some r else acc

/-- `limit(1).maybeSingle()` after the descending sort: a row maximal for
`tsLE` (ties between equal timestamps are unspecified by the database; the
model keeps the earliest listed). -/
def pickLatest (l : List DbAnalysisRow) : Option DbAnalysisRow :=
  l.foldl pickLatestStep none

def latestComplete (db : List DbAnalysisRow) (uid : String) : Option DbAnalysisRow :=
  pickLatest (completeRowsFor db uid)

/-- `severityOrder = { high: 3, moderate: 2, low: 1 }` from the latest route's
primary-concern sort. -/
def severityRank : Severity → Nat
  | .high => 3
  | .moderate => 2
  | .low => 1

/-- `[...traits].sort((a, b) => severityOrder[b.severity] - severityOrder[a.severity])[0]`:
JavaScript's stable sort makes this the first trait of maximal rank. -/
def firstMaxSeverity : List SkinTrait → Option SkinTrait :=
  List.foldl (fun acc t =>
    match acc with
    | none => some t
    | some a => if severityRank a.severity < severityRank t.severity then some t else acc) none

/-- The summary the latest route builds from a stored row.  Note it does not
read any stored skin type: it re-infers `skin_type` from the trait ids, and it
rebuilds `notes` from name/description pairs of the non-low traits, capped at
4; `sortedTraits[0]?.name || 'No major concerns'` also falls back on an empty
name string (JavaScript falsiness). -/
def latestSummary (uid : String) (envModel : Option String) (row : DbAnalysisRow) :
    AnalysisSummary :=
  let traits := row.detected_traits
  let hasOiliness := traits.any (fun t => t.id == "oiliness" && t.severity != Severity.low)
  let hasDryness := traits.any (fun t => t.id == "dryness" && t.severity != Severity.low)
  let hasSensitivity := traits.any (fun t => t.id == "sensitivity" && t.severity != Severity.low)
  let skinType :=
    if hasOiliness && hasDryness then "combination"
    else if hasOiliness then "oily"
    else if hasDryness then "dry"
    else if hasSensitivity then "sensitive"
    else "normal"
  let primaryConcern :=
    match firstMaxSeverity traits with
    | some t => if t.name = "" then "No major concerns" else t.name
    | none => "No major concerns"
  let notes0 := ((traits.filter (fun t => t.severity != Severity.low)).map
      (fun t => t.name ++ ": " ++ t.description)).take 4
  { user_id := uid
    skin_type := skinType
    confidence := row.confidence_score.getD 0 / 100
    primary_concern := primaryConcern
    updatedAt := row.completed_at.getD row.created_at
    series := [{ date := row.completed_at.getD row.created_at
                 acne := getTraitSeverity traits "acne"
                 dryness := getTraitSeverity traits "dryness"
                 pigmentation := getTraitSeverity traits "hyperpigmentation" }]
    notes := if notes0.isEmpty then
        ["Analysis complete. Check your routine recommendations."]
      else notes0
    modelVersion := envModel.getD "gpt-4o-mini"
    detected_traits := some traits }

inductive LatestResult where
  | unauthorizedR
  | dbErrorR
  | emptyR
  | summaryR (s : AnalysisSummary)

/-- The GET handler: a pure read.  With no matching completed row it answers
`{ success: true, data: null }` with HTTP 200 (`emptyR`), not an error. -/
def getAnalysisLatest (authed : Bool) (dbOk : Bool) (db : List DbAnalysisRow)
    (uid : String) (envModel : Option String) : LatestResult :=
  if !authed then .unauthorizedR
  else if !dbOk then .dbErrorR
  else
    match latestComplete db uid with
    | none => .emptyR
    | some row => .summaryR (latestSummary uid envModel row)

/-! # Theorems -/

/-- C1: the claim says `checkLimit` allows at most 3 requests per owner within
one rate-limit window and that a denied request carries a positive retry-after.
The code constructs the limiter with `refillIntervalMs = 0`, so the bucket
refills completely whenever at least 1 ms has elapsed: four requests issued
1 ms apart (all inside any one-hour window) are all allowed, and a request
denied within the same millisecond is reported with retry-after 0, never
positive.  Under the documented one-hour configuration the claimed behaviour
does hold, confirming the comment/docs as the intent and the `0` as the slip. -/
theorem checkLimit_c1_failing_input_eval :
    (runRequests rateLimiterProdConfig none [0, 1, 2, 3]).1 =
      [true, true, true, true] ∧
    (runRequests rateLimiterProdConfig none [0, 0, 0, 0]).1 =
      [true, true, true, false] ∧
    getRetryAfter rateLimiterProdConfig
      (runRequests rateLimiterProdConfig none [0, 0, 0, 0]).2 0 = 0 ∧
    (runRequests rateLimiterDocumentedConfig none [0, 1, 2, 3]).1 =
      [true, true, true, false] ∧
    0 < getRetryAfter rateLimiterDocumentedConfig
      (runRequests rateLimiterDocumentedConfig none [0, 1, 2, 3]).2 3 := by
  decide

theorem callVisionLoop_attempts_le (os : List AttemptOutcome) :
    (callVisionLoop os).2 ≤ os.length := by
  induction os with
  | nil => simp [callVisionLoop]
  | cons o rest ih =>
    cases h : attemptResult o with
    | ok v => simp [callVisionLoop, h]
    | error e =>
      simp only [callVisionLoop, h]
      split_ifs <;> simp <;> omega

theorem retryableFailureOutcome_spec (o : AttemptOutcome)
    (h : retryableFailureOutcome o) :
    ∃ s, o = .apiThrew s ∧ attemptResult o = .error (.apiErr s) ∧
      isRetryableError (.apiErr s) = true ∧
      isVisionNonRetryable (.apiErr s) = false := by
  cases o with
  | replied r => cases r <;> simp [retryableFailureOutcome] at h
  | otherThrew => simp [retryableFailureOutcome] at h
  | apiThrew s =>
    refine ⟨s, rfl, rfl, ?_, rfl⟩
    simp only [retryableFailureOutcome] at h
    simp only [isRetryableError, Bool.or_eq_true, beq_iff_eq, Bool.and_eq_true,
      decide_eq_true_eq]
    omega

theorem callVisionLoop_retryable_of_continue (os : List AttemptOutcome) (k : Nat)
    (h : k + 2 ≤ (callVisionLoop os).2) :
    retryableFailureOutcome (os.getD k .otherThrew) := by
  induction os generalizing k with
  | nil => simp [callVisionLoop] at h
  | cons o rest ih =>
    cases ha : attemptResult o with
    | ok v => simp [callVisionLoop, ha] at h
    | error e =>
      simp only [callVisionLoop, ha] at h
      by_cases h1 : isVisionNonRetryable e = true
      · rw [if_pos h1] at h
        simp at h
      · rw [if_neg h1] at h
        by_cases h2 : rest.isEmpty = true
        · rw [if_pos h2] at h
          simp at h
        · rw [if_neg h2] at h
          by_cases h3 : isRetryableError e = true
          · rw [if_pos h3] at h
            cases k with
            | zero =>
              cases o with
              | replied r =>
                cases r with
                | noContent =>
                  simp only [attemptResult, Except.error.injEq] at ha
                  subst ha
                  simp [isRetryableError] at h3
                | notJson =>
                  simp only [attemptResult, Except.error.injEq] at ha
                  subst ha
                  simp [isRetryableError] at h3
                | json p =>
                  simp only [attemptResult] at ha
                  cases hp : visionSafeParse p with
                  | some v => simp [hp] at ha
                  | none =>
                    simp only [hp, Except.error.injEq] at ha
                    subst ha
                    simp [isRetryableError] at h3
              | apiThrew s =>
                simp only [attemptResult, Except.error.injEq] at ha
                subst ha
                simp only [isRetryableError, Bool.or_eq_true, beq_iff_eq,
                  Bool.and_eq_true, decide_eq_true_eq] at h3
                simp only [List.getD_cons_zero, retryableFailureOutcome]
                omega
              | otherThrew =>
                simp only [attemptResult, Except.error.injEq] at ha
                subst ha
                simp [isRetryableError] at h3
            | succ k =>
              simp only [List.getD_cons_succ]
              simp only [Prod.snd] at h
              exact ih k (by omega)
          · rw [if_neg h3] at h
            simp at h

theorem callVisionLoop_stops_without_retryable_error (os : List AttemptOutcome)
    (k : Nat) (hk : k < os.length)
    (h : ∀ e, attemptResult (os.getD k .otherThrew) = .error e →
      isRetryableError e = false) :
    (callVisionLoop os).2 ≤ k + 1 := by
  induction os generalizing k with
  | nil => simp at hk
  | cons o rest ih =>
    cases k with
    | zero =>
      cases ha : attemptResult o with
      | ok v => simp [callVisionLoop, ha]
      | error e =>
        have he : isRetryableError e = false := h e (by simpa using ha)
        simp only [callVisionLoop, ha]
        split_ifs <;> simp_all
    | succ k =>
      cases ha : attemptResult o with
      | ok v => simp [callVisionLoop, ha]
      | error e =>
        simp only [callVisionLoop, ha]
        by_cases h1 : isVisionNonRetryable e = true
        · rw [if_pos h1]; simp
        · rw [if_neg h1]
          by_cases h2 : rest.isEmpty = true
          · rw [if_pos h2]; simp
          · rw [if_neg h2]
            by_cases h3 : isRetryableError e = true
            · rw [if_pos h3]
              have := ih k (by simpa using hk) (by simpa using h)
              simp only [Prod.snd]
              omega
            · rw [if_neg h3]; simp

/-- C3: `callVision` makes at most `RETRY_CONFIG.maxAttempts = 3` provider
attempts; a URL count other than 3 fails before any attempt; a first-attempt
failure of a non-retryable class (malformed JSON or schema violation) makes
exactly one attempt and raises a non-retryable `VisionAnalysisError`; and
three retryable failures exhaust the budget and raise the terminal
`exhaustedError` (mapped downstream to the service-unavailable message). -/
theorem callVision_c3_retry_bound (urls : List String) (validUrl : String → Bool)
    (outcomes : Nat → AttemptOutcome) :
    (callVision urls validUrl outcomes).2 ≤ 3 ∧
    (urls.length ≠ 3 →
      callVision urls validUrl outcomes =
        (.error (.visionErr "Expected exactly 3 image URLs" false), 0)) ∧
    (urls.length = 3 → urls.all validUrl = true →
      nonRetryableReplyOutcome (outcomes 0) →
      (callVision urls validUrl outcomes).2 = 1 ∧
      ∃ m, (callVision urls validUrl outcomes).1 = .error (.visionErr m false)) ∧
    (urls.length = 3 → urls.all validUrl = true →
      (∀ i, i < 3 → retryableFailureOutcome (outcomes i)) →
      callVision urls validUrl outcomes = (.error exhaustedError, 3)) := by
  have hrange : (List.range RETRY_CONFIG.maxAttempts).map outcomes =
      [outcomes 0, outcomes 1, outcomes 2] := rfl
  refine ⟨?_, ?_, ?_, ?_⟩
  · unfold callVision
    split_ifs
    · simp
    · simp
    · rw [hrange]
      exact le_trans (callVisionLoop_attempts_le _) (by simp)
  · intro h
    simp [callVision, h]
  · intro hlen hall hnr
    have hcv : callVision urls validUrl outcomes =
        callVisionLoop [outcomes 0, outcomes 1, outcomes 2] := by
      unfold callVision
      rw [if_neg (by omega), if_neg (by simp [hall]), hrange]
    cases ho : outcomes 0 with
    | replied r =>
      cases r with
      | noContent => simp [nonRetryableReplyOutcome, ho] at hnr
      | notJson =>
        rw [hcv, ho]
        exact ⟨rfl, "OpenAI response is not valid JSON", rfl⟩
      | json p =>
        rw [ho] at hnr
        simp only [nonRetryableReplyOutcome] at hnr
        rw [hcv, ho]
        simp only [callVisionLoop, attemptResult, hnr]
        exact ⟨rfl, "OpenAI response does not match expected schema", rfl⟩
    | apiThrew s => simp [nonRetryableReplyOutcome, ho] at hnr
    | otherThrew => simp [nonRetryableReplyOutcome, ho] at hnr
  · intro hlen hall hr
    have hcv : callVision urls validUrl outcomes =
        callVisionLoop [outcomes 0, outcomes 1, outcomes 2] := by
      unfold callVision
      rw [if_neg (by omega), if_neg (by simp [hall]), hrange]
    obtain ⟨s0, ho0, ha0, hr0, hn0⟩ := retryableFailureOutcome_spec _ (hr 0 (by omega))
    obtain ⟨s1, ho1, ha1, hr1, hn1⟩ := retryableFailureOutcome_spec _ (hr 1 (by omega))
    obtain ⟨s2, ho2, ha2, hr2, hn2⟩ := retryableFailureOutcome_spec _ (hr 2 (by omega))
    rw [hcv, ho0, ho1, ho2]
    rw [ho0] at ha0; rw [ho1] at ha1; rw [ho2] at ha2
    simp [callVisionLoop, ha0, ha1, ha2, hn0, hn1, hn2, hr0, hr1, hr2,
      isVisionNonRetryable]

theorem callVision_c3_retry_bound_witness :
    (callVision [] (fun _ => true) (fun _ => .apiThrew 500) =
      (.error (.visionErr "Expected exactly 3 image URLs" false), 0)) ∧
    ((callVision ["a", "b", "c"] (fun _ => true) (fun _ => .replied .notJson)).2 = 1 ∧
      ∃ m, (callVision ["a", "b", "c"] (fun _ => true)
        (fun _ => .replied .notJson)).1 = .error (.visionErr m false)) ∧
    (callVision ["a", "b", "c"] (fun _ => true) (fun _ => .apiThrew 503) =
      (.error exhaustedError, 3)) ∧
    (callVision ["a", "b", "c"] (fun _ => true) (fun _ => .apiThrew 503)).2 ≤ 3 := by
  refine ⟨(callVision_c3_retry_bound [] _ _).2.1 (by decide),
    (callVision_c3_retry_bound ["a", "b", "c"] _ _).2.2.1 rfl rfl trivial,
    (callVision_c3_retry_bound ["a", "b", "c"] _ _).2.2.2 rfl rfl ?_,
    (callVision_c3_retry_bound ["a", "b", "c"] _ _).1⟩
  intro i _
  simp [retryableFailureOutcome]

/-- C9: a second or third provider attempt happens only when the previous
attempt failed with a provider `APIError` whose status is 429 or in
`[500, 600)`; any other failure ends the call after that attempt — in
particular an empty model reply, although its `VisionAnalysisError` is
constructed with `retryable: true`, is never retried because
`isRetryableError` rejects it. -/
theorem callVision_c9_retry_predicate (urls : List String) (validUrl : String → Bool)
    (outcomes : Nat → AttemptOutcome) :
    (∀ k, k + 2 ≤ (callVision urls validUrl outcomes).2 →
      retryableFailureOutcome (outcomes k)) ∧
    (∀ k, k < 3 → outcomes k = .replied .noContent →
      (callVision urls validUrl outcomes).2 ≤ k + 1) ∧
    attemptResult (.replied .noContent) =
      .error (.visionErr "OpenAI returned empty response" true) := by
  have hrange : (List.range RETRY_CONFIG.maxAttempts).map outcomes =
      [outcomes 0, outcomes 1, outcomes 2] := rfl
  refine ⟨?_, ?_, rfl⟩
  · intro k hk
    unfold callVision at hk
    split_ifs at hk
    · simp at hk
    · simp at hk
    · rw [hrange] at hk
      have hle := callVisionLoop_attempts_le [outcomes 0, outcomes 1, outcomes 2]
      have hget := callVisionLoop_retryable_of_continue _ k hk
      simp only [List.length_cons, List.length_nil] at hle
      have hk2 : k ≤ 1 := by omega
      interval_cases k
      · simpa using hget
      · simpa using hget
  · intro k hk3 hnc
    unfold callVision
    split_ifs
    · simp
    · simp
    · rw [hrange]
      apply callVisionLoop_stops_without_retryable_error _ k (by simpa using hk3)
      intro e he
      have hgd : [outcomes 0, outcomes 1, outcomes 2].getD k .otherThrew =
          outcomes k := by
        interval_cases k <;> rfl
      rw [hgd, hnc] at he
      simp only [attemptResult, Except.error.injEq] at he
      subst he
      rfl

theorem callVision_c9_witness :
    retryableFailureOutcome (.apiThrew 429) ∧
    (callVision ["a", "b", "c"] (fun _ => true)
      (fun _ => .replied .noContent)).2 ≤ 0 + 1 := by
  constructor
  · exact (callVision_c9_retry_predicate ["a", "b", "c"] (fun _ => true)
      (fun _ => .apiThrew 429)).1 1 (by decide)
  · exact (callVision_c9_retry_predicate ["a", "b", "c"] (fun _ => true)
      (fun _ => .replied .noContent)).2.1 0 (by omega) rfl

/-- C5: the sleep before retry attempt `k ≥ 1` equals
`min(maxDelay, base * 2^(k-1) * (1 + jitter))` for some jitter in `[0, 0.3)`,
with base 1000 ms and maxDelay 10000 ms, where the jitter is `0.3` times the
uniform draw. -/
theorem getRetryDelay_c5_backoff (k : Nat) (rand : Rat)
    (hk : 1 ≤ k) (h0 : 0 ≤ rand) (h1 : rand < 1) :
    ∃ j : Rat, 0 ≤ j ∧ j < 3 / 10 ∧
      retryDelayBeforeAttempt rand k =
        min RETRY_CONFIG.maxDelayMs
          (RETRY_CONFIG.baseDelayMs * 2 ^ (k - 1) * (1 + j)) := by
  refine ⟨rand * (3 / 10), mul_nonneg h0 (by norm_num), ?_, ?_⟩
  · calc rand * (3 / 10) < 1 * (3 / 10) :=
          mul_lt_mul_of_pos_right h1 (by norm_num)
    _ = 3 / 10 := one_mul _
  · simp only [retryDelayBeforeAttempt, getRetryDelay]
    rw [min_comm]
    congr 1
    ring

theorem getRetryDelay_c5_witness :
    ∃ j : Rat, 0 ≤ j ∧ j < 3 / 10 ∧
      retryDelayBeforeAttempt (1 / 2) 1 =
        min RETRY_CONFIG.maxDelayMs
          (RETRY_CONFIG.baseDelayMs * 2 ^ (1 - 1) * (1 + j)) :=
  getRetryDelay_c5_backoff 1 (1 / 2) (by norm_num) (by norm_num) (by norm_num)

/-- C6: the mapper's three fixed channels are exactly `getTraitSeverity` at
ids `acne`, `dryness` and `hyperpigmentation` (reported as `pigmentation`);
the score is `severityScore` of the first matching trait's severity
(25/55/85 for low/moderate/high) and exactly 0 when no trait matches; no
value outside {0, 25, 55, 85} is possible. -/
theorem mapVisionToSummary_c6_channel_scores (uid : String) (v : VisionAnalysis)
    (ca : Nat) :
    ((mapVisionToSummary uid v ca).series =
      [{ date := ca, acne := getTraitSeverity v.traits "acne",
         dryness := getTraitSeverity v.traits "dryness",
         pigmentation := getTraitSeverity v.traits "hyperpigmentation" }]) ∧
    (∀ tid, v.traits.find? (fun t => t.id == tid) = none →
      getTraitSeverity v.traits tid = 0) ∧
    (∀ tid t, v.traits.find? (fun t => t.id == tid) = some t →
      getTraitSeverity v.traits tid = severityScore t.severity) ∧
    (severityScore .low = 25 ∧ severityScore .moderate = 55 ∧
      severityScore .high = 85) ∧
    (∀ tid, getTraitSeverity v.traits tid = 0 ∨ getTraitSeverity v.traits tid = 25 ∨
      getTraitSeverity v.traits tid = 55 ∨ getTraitSeverity v.traits tid = 85) := by
  refine ⟨rfl, ?_, ?_, ⟨rfl, rfl, rfl⟩, ?_⟩
  · intro tid h
    simp [getTraitSeverity, h]
  · intro tid t h
    simp [getTraitSeverity, h]
  · intro tid
    unfold getTraitSeverity
    cases v.traits.find? (fun t => t.id == tid) with
    | none => exact Or.inl rfl
    | some t =>
      obtain ⟨i, n, sev, d⟩ := t
      cases sev <;> simp [severityScore]

theorem mapVisionToSummary_c6_witness :
    getTraitSeverity [] "acne" = 0 ∧
    getTraitSeverity [⟨"acne", "Acne", Severity.high, "d"⟩] "acne" =
      severityScore Severity.high := by
  constructor
  · exact (mapVisionToSummary_c6_channel_scores "u"
      ⟨"Oily", 50, "c", [], [], "m"⟩ 0).2.1 "acne" rfl
  · exact (mapVisionToSummary_c6_channel_scores "u"
      ⟨"Oily", 50, "c", [⟨"acne", "Acne", Severity.high, "d"⟩], [], "m"⟩ 0).2.2.1
      "acne" ⟨"acne", "Acne", Severity.high, "d"⟩ rfl

theorem visionSafeParse_some_spec (p : RawPayload) (v : VisionAnalysis)
    (h : visionSafeParse p = some v) :
    p.skinType = some v.skinType ∧ isValidSkinType v.skinType = true ∧
    p.confidence = some v.confidence ∧ 0 ≤ v.confidence ∧ v.confidence ≤ 100 ∧
    (∃ pc, p.primaryConcern = some pc) ∧
    (∃ ts, p.traits = some ts ∧ parseTraitList ts = some v.traits) ∧
    1 ≤ v.traits.length := by
  obtain ⟨st?, c?, pc?, ts?, n?, mv?⟩ := p
  cases st? <;> cases c? <;> cases pc? <;> cases ts? <;> cases mv? <;>
    simp only [visionSafeParse] at h <;> try exact Option.noConfusion h
  rename_i st c pc ts mv
  by_cases hcond : isValidSkinType st = true ∧ 0 ≤ c ∧ c ≤ 100 ∧
      1 ≤ pc.length ∧ 1 ≤ mv.length
  case neg =>
    rw [if_neg hcond] at h
    exact Option.noConfusion h
  rw [if_pos hcond] at h
  cases hpt : parseTraitList ts with
  | none =>
    simp only [hpt] at h
    exact Option.noConfusion h
  | some vs =>
    simp only [hpt] at h
    by_cases hlen : 1 ≤ vs.length
    · rw [if_pos hlen] at h
      obtain rfl : VisionAnalysis.mk st c pc vs (n?.getD []) mv = v := by
        simpa using h
      obtain ⟨hst, h0, h100, _, _⟩ := hcond
      exact ⟨rfl, hst, rfl, h0, h100, ⟨pc, rfl⟩, ⟨ts, rfl, hpt⟩, hlen⟩
    · rw [if_neg hlen] at h
      exact Option.noConfusion h

/-- C4: any parsed payload missing one of `skinType`, `confidence`,
`primaryConcern` or `traits`, or with `confidence` outside `[0, 100]`, or with
an empty `traits` array, or with `skinType` outside the five recognized
categories, is rejected by `VisionAnalysisSchema.safeParse`; a call whose
first provider reply carries such a payload ends in a typed service error, and
the analysis record (when one was created at all) finishes with status
`error`, never `complete`. -/
theorem visionSafeParse_c4_schema_rejection (p : RawPayload)
    (hdef : p.skinType = none ∨ p.confidence = none ∨ p.primaryConcern = none ∨
      p.traits = none ∨ (∃ c, p.confidence = some c ∧ (c < 0 ∨ 100 < c)) ∨
      p.traits = some [] ∨
      (∃ st, p.skinType = some st ∧ isValidSkinType st = false)) :
    visionSafeParse p = none ∧
    (∀ env : OrchEnv, env.outcomes 0 = .replied (.json p) →
      (∃ se, (startOpenAIVisionAnalysis env).result = .error se) ∧
      (∀ r, finalRecord env = some r → r.status = "error")) := by
  have hv : visionSafeParse p = none := by
    cases hvp : visionSafeParse p with
    | none => rfl
    | some v =>
      exfalso
      obtain ⟨hst, hvalid, hc, h0, h100, ⟨pc, hpc⟩, ⟨ts, hts, hpt⟩, hlen⟩ :=
        visionSafeParse_some_spec p v hvp
      rcases hdef with h | h | h | h | ⟨c, hcc, hrange⟩ | h | ⟨st, hsts, hbad⟩
      · rw [h] at hst; exact absurd hst (by simp)
      · rw [h] at hc; exact absurd hc (by simp)
      · rw [h] at hpc; exact absurd hpc (by simp)
      · rw [h] at hts; exact absurd hts (by simp)
      · rw [hcc] at hc
        obtain rfl : c = v.confidence := by simpa using hc
        rcases hrange with hr | hr <;> linarith
      · rw [h] at hts
        obtain rfl : ([] : List RawTrait) = ts := by simpa using hts
        simp only [parseTraitList, Option.some.injEq] at hpt
        rw [← hpt] at hlen
        simp at hlen
      · rw [hsts] at hst
        obtain rfl : st = v.skinType := by simpa using hst
        rw [hbad] at hvalid
        exact absurd hvalid (by simp)
  refine ⟨hv, ?_⟩
  intro env ho
  have hloop : ∀ o1 o2, callVisionLoop [.replied (.json p), o1, o2] =
      (.error (.visionErr "OpenAI response does not match expected schema" false), 1) := by
    intro o1 o2
    simp [callVisionLoop, attemptResult, hv, isVisionNonRetryable]
  have hcv : ∀ urls, ∃ e n,
      callVision urls env.validUrl env.outcomes = (.error e, n) := by
    intro urls
    unfold callVision
    split_ifs
    · exact ⟨_, _, rfl⟩
    · exact ⟨_, _, rfl⟩
    · have hrange : (List.range RETRY_CONFIG.maxAttempts).map env.outcomes =
          [env.outcomes 0, env.outcomes 1, env.outcomes 2] := rfl
      rw [hrange, ho, hloop]
      exact ⟨_, _, rfl⟩
  cases hcr : env.createOk with
  | false =>
    constructor
    · exact ⟨dbCreateError, by simp [startOpenAIVisionAnalysis, hcr]⟩
    · intro r hr
      simp [finalRecord, startOpenAIVisionAnalysis, hcr] at hr
  | true =>
    cases him : env.images with
    | retrievalError m =>
      constructor
      · exact ⟨missingImagesError m, by simp [startOpenAIVisionAnalysis, hcr, him]⟩
      · intro r hr
        simp only [finalRecord, startOpenAIVisionAnalysis, hcr, him,
          Bool.not_true, Bool.false_eq_true, if_false, Option.map_some',
          Option.some.injEq] at hr
        rw [← hr]
        rfl
    | ok urls imageIds =>
      obtain ⟨e, n, hc⟩ := hcv urls
      constructor
      · refine ⟨serviceErrorOfVisionError e, ?_⟩
        simp [startOpenAIVisionAnalysis, hcr, him, hc]
      · intro r hr
        simp only [finalRecord, startOpenAIVisionAnalysis, hcr, him, hc,
          Bool.not_true, Bool.false_eq_true, if_false, Option.map_some',
          Option.some.injEq] at hr
        rw [← hr]
        rfl

theorem visionSafeParse_c4_witness :
    visionSafeParse missingSkinTypePayload = none ∧
    (∃ se, (startOpenAIVisionAnalysis schemaRejectEnv).result = .error se) ∧
    (∀ r, finalRecord schemaRejectEnv = some r → r.status = "error") := by
  have h := visionSafeParse_c4_schema_rejection missingSkinTypePayload (Or.inl rfl)
  exact ⟨h.1, (h.2 schemaRejectEnv rfl).1, (h.2 schemaRejectEnv rfl).2⟩

/-- C2 counterexample: a run whose vision call fails (three retryable
provider failures) leaves the record in terminal status `error` with
`completed_at` still null — the catch-block update writes only `status` and
`error_message`, so the claim that every terminal record carries a non-null
`completedAt` is false of the code. -/
theorem analysisRecord_c2_counterexample :
    (finalRecord providerDownEnv).map (fun r => (r.status, r.completed_at)) =
      some ("error", none) := by
  rfl

/-- C2 amended: a record reaching `complete` has `completed_at` set to the
completion clock by exactly one update; a record reaching `error` has
`completed_at` still null — the error path performs no `completed_at` write
at all, unlike the success path. -/
theorem analysisRecord_c2_amended (env : OrchEnv) (us : List RecUpdate)
    (h : (startOpenAIVisionAnalysis env).updates = some us) :
    ((applyUpdates initialRecord us).status = "complete" →
      (applyUpdates initialRecord us).completed_at = some env.now ∧
      us.countP touchesCompletedAt = 1) ∧
    ((applyUpdates initialRecord us).status = "error" →
      (applyUpdates initialRecord us).completed_at = none ∧
      us.countP touchesCompletedAt = 0) := by
  cases hcr : env.createOk with
  | false => simp [startOpenAIVisionAnalysis, hcr] at h
  | true =>
    cases him : env.images with
    | retrievalError m =>
      simp only [startOpenAIVisionAnalysis, hcr, him, Bool.not_true,
        Bool.false_eq_true, if_false, Option.some.injEq] at h
      subst h
      refine ⟨?_, fun _ => ⟨rfl, rfl⟩⟩
      intro hcontra
      simp [applyUpdates, applyUpdate] at hcontra
    | ok urls imageIds =>
      rcases hc : callVision urls env.validUrl env.outcomes with ⟨res, n⟩
      cases res with
      | error e =>
        simp only [startOpenAIVisionAnalysis, hcr, him, hc, Bool.not_true,
          Bool.false_eq_true, if_false, Option.some.injEq] at h
        subst h
        refine ⟨?_, fun _ => ⟨rfl, rfl⟩⟩
        intro hcontra
        simp [applyUpdates, applyUpdate] at hcontra
      | ok v =>
        cases hs : env.saveOk with
        | true =>
          simp only [startOpenAIVisionAnalysis, hcr, him, hc, hs, Bool.not_true,
            Bool.false_eq_true, if_false, if_true, Option.some.injEq] at h
          subst h
          refine ⟨fun _ => ⟨rfl, rfl⟩, ?_⟩
          intro hcontra
          simp [applyUpdates, applyUpdate] at hcontra
        | false =>
          simp only [startOpenAIVisionAnalysis, hcr, him, hc, hs, Bool.not_true,
            Bool.false_eq_true, if_false, Option.some.injEq] at h
          subst h
          refine ⟨?_, fun _ => ⟨rfl, rfl⟩⟩
          intro hcontra
          simp [applyUpdates, applyUpdate] at hcontra

theorem analysisRecord_c2_amended_witness :
    ((applyUpdates initialRecord [RecUpdate.setStatus "screening",
        .setStatus "detecting", .setStatus "generating",
        .saveResults [⟨"oiliness", "Oiliness", Severity.high, "d"⟩] 85
          ["i1", "i2", "i3"] 7]).completed_at = some 7 ∧
      List.countP touchesCompletedAt [RecUpdate.setStatus "screening",
        .setStatus "detecting", .setStatus "generating",
        .saveResults [⟨"oiliness", "Oiliness", Severity.high, "d"⟩] 85
          ["i1", "i2", "i3"] 7] = 1) ∧
    ((applyUpdates initialRecord [RecUpdate.setStatus "screening",
        .setError "Missing required image for angle: left_45"]).completed_at =
        none ∧
      List.countP touchesCompletedAt [RecUpdate.setStatus "screening",
        .setError "Missing required image for angle: left_45"] = 0) := by
  constructor
  · exact (analysisRecord_c2_amended happyPathEnv _ rfl).1 rfl
  · exact (analysisRecord_c2_amended missingImageEnv _ rfl).2 rfl

theorem checkLimit_consumes (cfg : RateLimiterConfig) (bucket? : Option Bucket)
    (now : Nat) (hcap : 1 ≤ cfg.maxTokens)
    (h : (checkLimit cfg bucket? now).1 = true) :
    (checkLimit cfg bucket? now).2.tokens + 1 = tokensAvailable cfg bucket? now := by
  cases bucket? with
  | none =>
    simp only [checkLimit, tokensAvailable]
    omega
  | some b =>
    simp only [checkLimit, tokensAvailable] at h ⊢
    by_cases ht : 0 < (refillBucket cfg b now).tokens
    · rw [if_pos ht] at h ⊢
      simp only [Prod.snd]
      omega
    · rw [if_neg ht] at h
      exact absurd h (by simp)

/-- C7: the POST handler checks the rate limit before the orchestration
resolves images, so when the owner is missing a required angle the call fails
with the `missing_images` error (HTTP 400) after zero provider attempts, yet
the rate-limit token for that invocation has already been consumed. -/
theorem postAnalysisStart_c7_rate_check_first (env : PostEnv) (m : String)
    (hauth : env.authed = true)
    (hallow : (checkLimit rateLimiterProdConfig env.bucket? env.now).1 = true)
    (hcreate : env.orch.createOk = true)
    (himg : env.orch.images = .retrievalError m) :
    (postAnalysisStart env).response =
      .failRes 400 "missing_images" (missingImagesError m).userMessage ∧
    (postAnalysisStart env).visionAttempts = 0 ∧
    (postAnalysisStart env).updates =
      some [.setStatus "screening", .setError m] ∧
    (postAnalysisStart env).bucket? =
      some (checkLimit rateLimiterProdConfig env.bucket? env.now).2 ∧
    (checkLimit rateLimiterProdConfig env.bucket? env.now).2.tokens + 1 =
      tokensAvailable rateLimiterProdConfig env.bucket? env.now := by
  have horch : startOpenAIVisionAnalysis env.orch =
      { result := .error (missingImagesError m),
        updates := some [.setStatus "screening", .setError m],
        visionAttempts := 0 } := by
    simp [startOpenAIVisionAnalysis, hcreate, himg]
  have hpost : postAnalysisStart env =
      { response := .failRes 400 "missing_images" (missingImagesError m).userMessage,
        bucket? := some (checkLimit rateLimiterProdConfig env.bucket? env.now).2,
        updates := some [.setStatus "screening", .setError m],
        visionAttempts := 0 } := by
    simp [postAnalysisStart, hauth, hallow, horch, missingImagesError]
  rw [hpost]
  exact ⟨rfl, rfl, rfl, rfl,
    checkLimit_consumes rateLimiterProdConfig env.bucket? env.now (by decide) hallow⟩

theorem postAnalysisStart_c7_witness :
    (postAnalysisStart missingImagePostEnv).response =
      .failRes 400 "missing_images"
        (missingImagesError "Missing required image for angle: left_45").userMessage ∧
    (postAnalysisStart missingImagePostEnv).visionAttempts = 0 ∧
    (checkLimit rateLimiterProdConfig none 0).2.tokens + 1 =
      tokensAvailable rateLimiterProdConfig none 0 := by
  have h := postAnalysisStart_c7_rate_check_first missingImagePostEnv
    "Missing required image for angle: left_45" rfl rfl rfl rfl
  exact ⟨h.1, h.2.1, h.2.2.2.2⟩

theorem tsLE_refl (x : Option Nat) : tsLE x x = true := by
  cases x <;> simp [tsLE]

theorem tsLE_total (x y : Option Nat) : tsLE x y = true ∨ tsLE y x = true := by
  cases x <;> cases y <;> simp [tsLE] <;> omega

theorem tsLE_trans {x y z : Option Nat} (h1 : tsLE x y = true)
    (h2 : tsLE y z = true) : tsLE x z = true := by
  cases x <;> cases y <;> cases z <;> simp [tsLE] at h1 h2 ⊢ <;> omega

theorem pickLatest_fold_mem (l : List DbAnalysisRow) (acc : Option DbAnalysisRow)
    (r : DbAnalysisRow) (h : l.foldl pickLatestStep acc = some r) :
    r ∈ l ∨ acc = some r := by
  induction l generalizing acc with
  | nil => exact Or.inr h
  | cons x xs ih =>
    simp only [List.foldl_cons] at h
    rcases ih (pickLatestStep acc x) h with hmem | hacc
    · exact Or.inl (List.mem_cons_of_mem _ hmem)
    · cases acc with
      | none =>
        simp only [pickLatestStep, Option.some.injEq] at hacc
        exact Or.inl (hacc ▸ List.mem_cons_self x xs)
      | some a =>
        simp only [pickLatestStep] at hacc
        by_cases hle : tsLE x.completed_at a.completed_at = true
        · rw [if_neg (by simp [hle])] at hacc
          exact Or.inr hacc
        · rw [if_pos (by simp [Bool.not_eq_true] at hle; simp [hle])] at hacc
          obtain rfl : x = r := by simpa using hacc
          exact Or.inl (List.mem_cons_self x xs)

theorem pickLatest_fold_max (l : List DbAnalysisRow) (acc : Option DbAnalysisRow)
    (r : DbAnalysisRow) (h : l.foldl pickLatestStep acc = some r) :
    (∀ x ∈ l, tsLE x.completed_at r.completed_at = true) ∧
    (∀ a, acc = some a → tsLE a.completed_at r.completed_at = true) := by
  induction l generalizing acc with
  | nil =>
    refine ⟨by simp, fun a ha => ?_⟩
    simp only [List.foldl_nil] at h
    rw [ha] at h
    obtain rfl : a = r := by simpa using h
    exact tsLE_refl _
  | cons x xs ih =>
    simp only [List.foldl_cons] at h
    obtain ⟨hxs, hacc'⟩ := ih (pickLatestStep acc x) h
    have hx : tsLE x.completed_at r.completed_at = true := by
      cases acc with
      | none => exact hacc' x rfl
      | some a =>
        by_cases hle : tsLE x.completed_at a.completed_at = true
        · have ha : tsLE a.completed_at r.completed_at = true := by
            apply hacc'
            simp only [pickLatestStep]
            rw [if_neg (by simp [hle])]
          exact tsLE_trans hle ha
        · apply hacc'
          simp only [pickLatestStep]
          rw [if_pos (by simp [Bool.not_eq_true] at hle; simp [hle])]
    constructor
    · intro y hy
      rcases List.mem_cons.mp hy with rfl | hmem
      · exact hx
      · exact hxs y hmem
    · intro a ha
      subst ha
      by_cases hle : tsLE x.completed_at a.completed_at = true
      · apply hacc'
        simp only [pickLatestStep]
        rw [if_neg (by simp [hle])]
      · have hax : tsLE a.completed_at x.completed_at = true := by
          rcases tsLE_total x.completed_at a.completed_at with h1 | h1
          · exact absurd h1 hle
          · exact h1
        exact tsLE_trans hax hx

theorem pickLatest_fold_isSome (l : List DbAnalysisRow) (a : DbAnalysisRow) :
    (l.foldl pickLatestStep (some a)).isSome = true := by
  induction l generalizing a with
  | nil => rfl
  | cons x xs ih =>
    simp only [List.foldl_cons, pickLatestStep]
    by_cases hle : tsLE x.completed_at a.completed_at = true
    · rw [if_neg (by simp [hle])]
      exact ih a
    · rw [if_pos (by simp [Bool.not_eq_true] at hle; simp [hle])]
      exact ih x

/-- C8: the latest route is a pure projection of the owner's completed rows:
with no completed row for the owner it answers the explicit empty success
response, and otherwise it answers the summary of a row that belongs to the
owner, has status `complete`, and is maximal in the completion-timestamp
order among the owner's completed rows. -/
theorem getAnalysisLatest_c8_latest_projection (db : List DbAnalysisRow)
    (uid : String) (envModel : Option String) :
    (completeRowsFor db uid = [] →
      getAnalysisLatest true true db uid envModel = .emptyR) ∧
    (completeRowsFor db uid ≠ [] →
      ∃ r, latestComplete db uid = some r ∧ r ∈ completeRowsFor db uid ∧
        r.user_id = uid ∧ r.status = "complete" ∧
        (∀ x ∈ completeRowsFor db uid,
          tsLE x.completed_at r.completed_at = true) ∧
        getAnalysisLatest true true db uid envModel =
          .summaryR (latestSummary uid envModel r)) := by
  constructor
  · intro h
    simp [getAnalysisLatest, latestComplete, h, pickLatest]
  · intro h
    obtain ⟨x, xs, hcons⟩ : ∃ x xs, completeRowsFor db uid = x :: xs := by
      cases hc : completeRowsFor db uid with
      | nil => exact absurd hc h
      | cons x xs => exact ⟨x, xs, rfl⟩
    have hsome : (pickLatest (completeRowsFor db uid)).isSome = true := by
      rw [hcons]
      simpa [pickLatest, pickLatestStep] using pickLatest_fold_isSome xs x
    obtain ⟨r, hr⟩ := Option.isSome_iff_exists.mp hsome
    have hmem : r ∈ completeRowsFor db uid := by
      rcases pickLatest_fold_mem _ _ _ hr with hm | hm
      · exact hm
      · exact Option.noConfusion hm
    have hpred := List.mem_filter.mp hmem
    have huser : r.user_id = uid := by
      have := hpred.2
      simp only [Bool.and_eq_true, beq_iff_eq] at this
      exact this.1
    have hstatus : r.status = "complete" := by
      have := hpred.2
      simp only [Bool.and_eq_true, beq_iff_eq] at this
      exact this.2
    refine ⟨r, hr, hmem, huser, hstatus, (pickLatest_fold_max _ _ _ hr).1, ?_⟩
    simp [getAnalysisLatest, latestComplete, hr]

theorem getAnalysisLatest_c8_witness :
    (getAnalysisLatest true true [] "u" none = .emptyR) ∧
    (∃ r, latestComplete
        [{ id := "id1", user_id := "u", status := "complete",
           detected_traits := [], confidence_score := some 80,
           created_at := 1, completed_at := some 5 }] "u" = some r ∧
      r ∈ completeRowsFor
        [{ id := "id1", user_id := "u", status := "complete",
           detected_traits := [], confidence_score := some 80,
           created_at := 1, completed_at := some 5 }] "u" ∧
      r.user_id = "u" ∧ r.status = "complete" ∧
      (∀ x ∈ completeRowsFor
        [{ id := "id1", user_id := "u", status := "complete",
           detected_traits := [], confidence_score := some 80,
           created_at := 1, completed_at := some 5 }] "u",
        tsLE x.completed_at r.completed_at = true) ∧
      getAnalysisLatest true true
        [{ id := "id1", user_id := "u", status := "complete",
           detected_traits := [], confidence_score := some 80,
           created_at := 1, completed_at := some 5 }] "u" none =
        .summaryR (latestSummary "u" none r)) := by
  constructor
  · exact (getAnalysisLatest_c8_latest_projection [] "u" none).1 rfl
  · exact (getAnalysisLatest_c8_latest_projection
      [{ id := "id1", user_id := "u", status := "complete",
         detected_traits := [], confidence_score := some 80,
         created_at := 1, completed_at := some 5 }] "u" none).2 (by decide)

/-- C10: for a concrete completed analysis the two summary constructions
disagree: `mapVisionToSummary` applies the fixed five-category lookup to the
model's `skinType` and passes `notes` through verbatim, while the latest
route re-derives `skin_type` from the trait ids and rebuilds `notes` from
trait name/description pairs capped at 4. -/
theorem summaries_c10_divergence :
    (mapVisionToSummary "u"
      ⟨"Oily", 80, "c", [⟨"dryness", "Dryness", .high, "desc"⟩],
        ["model note"], "m1"⟩ 5).skin_type = "oily" ∧
    (latestSummary "u" none
      { id := "id1", user_id := "u", status := "complete",
        detected_traits := [⟨"dryness", "Dryness", .high, "desc"⟩],
        confidence_score := some 80, created_at := 1,
        completed_at := some 5 }).skin_type = "dry" ∧
    (mapVisionToSummary "u"
      ⟨"Oily", 80, "c", [⟨"dryness", "Dryness", .high, "desc"⟩],
        ["model note"], "m1"⟩ 5).notes = ["model note"] ∧
    (latestSummary "u" none
      { id := "id1", user_id := "u", status := "complete",
        detected_traits := [⟨"dryness", "Dryness", .high, "desc"⟩],
        confidence_score := some 80, created_at := 1,
        completed_at := some 5 }).notes = ["Dryness: desc"] ∧
    (latestSummary "u" none
      { id := "id2", user_id := "u", status := "complete",
        detected_traits := [⟨"acne", "Acne", .moderate, "a"⟩,
          ⟨"dryness", "Dry", .moderate, "b"⟩,
          ⟨"redness", "Red", .moderate, "c"⟩,
          ⟨"oiliness", "Oil", .moderate, "d"⟩,
          ⟨"sensitivity", "Sen", .moderate, "e"⟩],
        confidence_score := some 80, created_at := 1,
        completed_at := some 5 }).notes.length = 4 ∧
    (mapVisionToSummary "u"
      ⟨"Oily", 80, "c", [⟨"acne", "Acne", .moderate, "a"⟩],
        ["n1", "n2", "n3", "n4", "n5"], "m1"⟩ 5).notes =
      ["n1", "n2", "n3", "n4", "n5"] := by
  refine ⟨rfl, rfl, rfl, rfl, rfl, rfl⟩

end CareFi
